import Mathlib

/-!
Verification of the worker-side orchestration layer of a browser chat
application (model loading, streamed text generation, cooperative
interruption).  The definitions below are a shallow embedding of the
worker source: the stopping-criteria class, the memoized pipeline
cache, the streaming update callback, the `generate` and `load`
handlers and the message router.  External collaborators (tokenizer,
model, decoding engine) are stubs supplied through a `World` record;
the decoding loop itself is modelled from the spec's engine contract,
as the engine library is not part of this repository.
-/

namespace WebGpuChat

/-- The configuration record sent by the host: model identifier, numeric
precision and execution device. -/
structure Config where
  modelName : String
  dtype : String
  device : String
  deriving DecidableEq, Repr

/-- One conversation message, `{role, content}`. -/
structure ChatMessage where
  role : String
  content : String
  deriving DecidableEq, Repr

/-- The structured ("dict-like") result of applying the chat template. -/
structure ChatInputs where
  ids : List Nat
  deriving DecidableEq, Repr

/-- Stub of the external tokenizer collaborator.  `decodeFragment` and
`batchDecode` take the `skip_special_tokens` flag as their first
argument. -/
structure Tokenizer where
  applyChatTemplate : List ChatMessage → Option ChatInputs
  encodeText : String → ChatInputs
  decodeFragment : Bool → List Nat → String
  batchDecode : Bool → List (List Nat) → List String

/-- Stub of the loaded model artifact (the decoding behaviour lives in
`World.enginePlan`). -/
structure Model where
  model_id : String
  dtype : String
  device : String
  deriving DecidableEq, Repr

/-- Embedding of `class InterruptableStoppingCriteria extends
StoppingCriteriaList`: a single mutable boolean. -/
structure InterruptableStoppingCriteria where
  interrupted : Bool
  deriving DecidableEq, Repr

/-- `interrupt()` sets the flag. -/
def InterruptableStoppingCriteria.interrupt
    (s : InterruptableStoppingCriteria) : InterruptableStoppingCriteria :=
  { s with interrupted := true }

/-- `reset()` clears the flag. -/
def InterruptableStoppingCriteria.reset
    (s : InterruptableStoppingCriteria) : InterruptableStoppingCriteria :=
  { s with interrupted := false }

/-- The per-step check of the stopping criteria:
`return new Array(input_ids.length).fill(this.interrupted)`. -/
def InterruptableStoppingCriteria.call (s : InterruptableStoppingCriteria)
    (input_ids : List (List Nat)) (_scores : List (List Nat)) : List Bool :=
  List.replicate input_ids.length s.interrupted

/-- The static fields of `TextGenerationPipeline`: `model_id`, and the
memoized tokenizer and model promises (a settled promise is either a
value or a cached rejection). -/
structure PipelineCache where
  model_id : Option String
  tokenizer : Option (Except String Tokenizer)
  model : Option (Except String Model)

/-- The cache before any load: all static fields unset. -/
def PipelineCache.empty : PipelineCache := ⟨none, none, none⟩

/-- The external behaviours a run is parameterised by: what the two
`from_pretrained` calls produce for a given model id (result and the
progress events they report), and what the decoding engine would emit:
a plan of timestamped raw-token chunks, the batch size it decodes, and
the step at which an `interrupt` command lands mid-run (if any). -/
structure World where
  loadTokenizer : String → Except String Tokenizer
  tokenizerProgress : String → List String
  loadModel : String → String → String → Except String Model
  modelProgress : String → List String
  enginePlan : List (ℚ × List Nat)
  batchSize : Nat
  interruptAt : Option Nat

/-- Result of one `getInstance` call: updated static cache, progress
events reported during this call, and the settled `Promise.all`. -/
structure AcquireResult where
  cache : PipelineCache
  progressEvents : List String
  result : Except String (Tokenizer × Model)

/-- `Promise.all([tokenizer, model])`: rejects with the first rejection,
otherwise resolves with the pair. -/
def promiseAll : Except String Tokenizer → Except String Model →
    Except String (Tokenizer × Model)
  | .error e, _ => .error e
  | .ok _, .error e => .error e
  | .ok t, .ok m => .ok (t, m)

/-- Embedding of `TextGenerationPipeline.getInstance`: `model_id` is
overwritten unconditionally, while the tokenizer and model slots use
`??=` — they load (and report progress, when a callback was passed)
only if unset, and whatever they produce is cached, a rejection
included. -/
def getInstance (W : World) (c : PipelineCache) (config : Config)
    (withProgress : Bool) : AcquireResult :=
  let model_id := config.modelName
  let tokLoad : Except String Tokenizer × List String :=
    match c.tokenizer with
    | some t => (t, [])
    | none => (W.loadTokenizer model_id,
        if withProgress then W.tokenizerProgress model_id else [])
  let mdlLoad : Except String Model × List String :=
    match c.model with
    | some m => (m, [])
    | none => (W.loadModel model_id config.dtype config.device,
        if withProgress then W.modelProgress model_id else [])
  { cache := ⟨some model_id, some tokLoad.1, some mdlLoad.1⟩,
    progressEvents := tokLoad.2 ++ mdlLoad.2,
    result := promiseAll tokLoad.1 mdlLoad.1 }

/-- The events the worker posts to the host via `self.postMessage`.
`progressEvt` republishes a progress payload verbatim. -/
inductive WorkerEvent where
  | loading (data : String)
  | progressEvt (payload : String)
  | ready
  | start
  | update (output : String) (tps : Option ℚ) (numTokens : Nat)
  | complete (output : List String)
  | error (message : String)
  deriving DecidableEq, Repr

/-- The local state of the streaming callback inside `generate`:
`startTime` (unset until the first fragment) and `numTokens`. -/
structure CbState where
  startTime : Option ℚ
  numTokens : Nat
  deriving DecidableEq, Repr

/-- Callback state at the start of a session. -/
def cbInit : CbState := ⟨none, 0⟩

/-- One invocation of the streaming callback `cb`:
`startTime ??= performance.now()`, then `if (numTokens++ > 0)` computes
`tps = numTokens / (performance.now() - startTime) * 1000` with the
already incremented counter, and an `update` event is posted with the
incremented counter. -/
def cbStep (st : CbState) (now : ℚ) (output : String) : CbState × WorkerEvent :=
  let startTime := st.startTime.getD now
  let tps : Option ℚ :=
    if 0 < st.numTokens
    then some ((st.numTokens + 1 : ℚ) / (now - startTime) * 1000)
    else none
  (⟨some startTime, st.numTokens + 1⟩,
    WorkerEvent.update output tps (st.numTokens + 1))

/-- Feed a list of timestamped fragments through the callback, emitting
one `update` event per fragment in arrival order. -/
def runCb (st : CbState) : List (ℚ × String) → List WorkerEvent
  | [] => []
  | (t, s) :: rest =>
    let r := cbStep st t s
    r.2 :: runCb r.1 rest

/-- Value of the interrupt flag as seen at decoding step `j`, given its
value at session start and the step at which an `interrupt` command
lands (the flag, once set, stays set for the rest of the run). -/
def flagAt (init : Bool) (intAt : Option Nat) (j : Nat) : Bool :=
  init || (match intAt with
    | none => false
    | some k => decide (k ≤ j))

/-- Modelled from the spec: the external decoding loop (the engine
library's `model.generate`, which is not part of this repository).  Per
the spec's engine contract it emits one fragment per step in generation
order and polls the stopping criteria once per generated token, for
every row of a batch of `n` sequences; it stops as soon as every row
reports stop, or when the `max_new_tokens` bound (`fuel`) is reached. -/
def decodeLoop (init : Bool) (intAt : Option Nat) (n : Nat) :
    Nat → Nat → List (ℚ × List Nat) → List (ℚ × List Nat)
  | _, _, [] => []
  | j, fuel, c :: rest =>
    let stop := (InterruptableStoppingCriteria.call ⟨flagAt init intAt j⟩
      (List.replicate n []) (List.replicate n [])).all (fun b => b)
    c :: (if stop = true ∨ fuel ≤ 1 then []
          else decodeLoop init intAt n (j + 1) (fuel - 1) rest)

/-- The chunks the engine produces during a `generate` session: the
decoding loop run from step 0 with the session's initial flag value and
the source's `max_new_tokens: 512` bound. -/
def genChunks (W : World) (crit : InterruptableStoppingCriteria) :
    List (ℚ × List Nat) :=
  decodeLoop crit.interrupted W.interruptAt W.batchSize 0 512 W.enginePlan

/-- The timestamped text fragments the streamer hands to the callback:
each chunk decoded with `skip_special_tokens: true` (the option the
`CallbackTextStreamer` constructor fixes). -/
def fragsOf (tok : Tokenizer) (chunks : List (ℚ × List Nat)) :
    List (ℚ × String) :=
  chunks.map (fun c => (c.1, tok.decodeFragment true c.2))

/-- Embedding of the body of `generate` after the pipeline has been
retrieved (the generation session proper): apply the chat template and
silently return unless it yields a structured result; otherwise post
`start`, stream one `update` per produced fragment, and post a single
`complete` carrying `batch_decode` of the raw output with
`skip_special_tokens: false`. -/
def sessionRun (W : World) (crit : InterruptableStoppingCriteria)
    (tok : Tokenizer) (_mdl : Model) (messages : List ChatMessage) :
    List WorkerEvent :=
  match tok.applyChatTemplate messages with
  | none => []
  | some _inputs =>
    let chunks := genChunks W crit
    WorkerEvent.start :: runCb cbInit (fragsOf tok chunks)
      ++ [WorkerEvent.complete (tok.batchDecode false (chunks.map Prod.snd))]

/-- Embedding of the async `generate` function: retrieve the pipeline
(without a progress callback), then run the session.  A rejected
pipeline promise makes the un-awaited async function reject, so no
event at all is posted in that case. -/
def generateRun (W : World) (crit : InterruptableStoppingCriteria)
    (cache : PipelineCache) (messages : List ChatMessage) (config : Config) :
    PipelineCache × List WorkerEvent :=
  let r := getInstance W cache config false
  match r.result with
  | .error _ => (r.cache, [])
  | .ok (tok, mdl) => (r.cache, sessionRun W crit tok mdl messages)

/-- The warm-up generation performed by `load`: dummy input
`tokenizer("a")`, `max_new_tokens: 1`, no streamer and no stopping
criteria, so it emits no event. -/
def warmupRun (W : World) (tok : Tokenizer) (_mdl : Model) :
    List (ℚ × List Nat) :=
  let _inputs := tok.encodeText "a"
  decodeLoop false none W.batchSize 0 1 W.enginePlan

/-- Embedding of the async `load` function: post a `loading` event,
retrieve the pipeline with a progress callback that republishes every
progress payload verbatim, then post a second `loading` event, run the
warm-up generation, and post `ready`.  A rejected pipeline promise makes
the un-awaited async function reject after the events already posted. -/
def loadRun (W : World) (cache : PipelineCache) (config : Config) :
    PipelineCache × List WorkerEvent :=
  let ev0 := WorkerEvent.loading
    ("Loading model...\n" ++ config.modelName ++ " (" ++ config.dtype ++ ") "
      ++ config.device)
  let r := getInstance W cache config true
  match r.result with
  | .error _ =>
    (r.cache, ev0 :: r.progressEvents.map WorkerEvent.progressEvt)
  | .ok (tok, mdl) =>
    let _warm := warmupRun W tok mdl
    (r.cache, ev0 :: r.progressEvents.map WorkerEvent.progressEvt
      ++ [WorkerEvent.loading "Compiling shaders and warming up model...",
          WorkerEvent.ready])

/-- A message from the host: `{type, data, config}` as destructured by
the listener. -/
structure HostMessage where
  type : String
  data : List ChatMessage
  config : Config

/-- The worker's mutable state: the shared stopping criteria and the
pipeline statics. -/
structure WorkerState where
  criteria : InterruptableStoppingCriteria
  cache : PipelineCache

/-- Embedding of the `message` event listener's `switch`: `load` and
`generate` dispatch to the async handlers (fire-and-forget, so their
rejections never reach the surrounding try/catch), `generate` first
calls `stopping_criteria.reset()`, `interrupt` only sets the flag,
`reset` only clears it, and any other type falls through the switch
doing nothing. -/
def handleMessage (W : World) (st : WorkerState) (m : HostMessage) :
    WorkerState × List WorkerEvent :=
  if m.type = "load" then
    let r := loadRun W st.cache m.config
    (⟨st.criteria, r.1⟩, r.2)
  else if m.type = "generate" then
    let crit := st.criteria.reset
    let r := generateRun W crit st.cache m.data m.config
    (⟨crit, r.1⟩, r.2)
  else if m.type = "interrupt" then
    (⟨st.criteria.interrupt, st.cache⟩, [])
  else if m.type = "reset" then
    (⟨st.criteria.reset, st.cache⟩, [])
  else
    (st, [])

/-- Number of `complete` events in a trace. -/
def completeCount : List WorkerEvent → Nat
  | [] => 0
  | .complete _ :: rest => completeCount rest + 1
  | _ :: rest => completeCount rest

/-- Number of `error` events in a trace. -/
def errorCount : List WorkerEvent → Nat
  | [] => 0
  | .error _ :: rest => errorCount rest + 1
  | _ :: rest => errorCount rest

/-- The model id of a successful acquisition result. -/
def resultModelId : Except String (Tokenizer × Model) → Option String
  | .ok (_, m) => some m.model_id
  | .error _ => none

/-- A concrete stub tokenizer for test scenarios: the chat template
fails on an empty history and succeeds otherwise; the decoders tag
their output with the skip flag and the model id so the two decoding
modes are distinguishable. -/
def tokStub (id : String) : Tokenizer where
  applyChatTemplate := fun ms => if ms.isEmpty then none else some ⟨[1]⟩
  encodeText := fun _ => ⟨[0]⟩
  decodeFragment := fun skip c =>
    (if skip then "frag" else "FRAG") ++ toString c.length ++ id
  batchDecode := fun skip cs =>
    [(if skip then "out" else "OUT") ++ toString cs.length ++ id]

/-- A concrete stub world: both artifacts load successfully, each
reporting two progress events; the engine plans five one-token chunks
at unit time intervals; batch size one; no interrupt command. -/
def W0 : World where
  loadTokenizer := fun id => .ok (tokStub id)
  tokenizerProgress := fun id => ["tok-init:" ++ id, "tok-done:" ++ id]
  loadModel := fun id d dev => .ok ⟨id, d, dev⟩
  modelProgress := fun id => ["mdl-init:" ++ id, "mdl-done:" ++ id]
  enginePlan := [(0, [10]), (1, [11]), (2, [12]), (3, [13]), (4, [14])]
  batchSize := 1
  interruptAt := none

/-- The stub world with an interrupt command landing at decoding step 1. -/
def W1 : World := { W0 with interruptAt := some 1 }

/-- The stub world with a tokenizer load that rejects. -/
def Wfail : World :=
  { W0 with loadTokenizer := fun _ => .error "network failure",
            tokenizerProgress := fun _ => [] }

/-- A concrete configuration for model id "A". -/
def cfgA : Config := ⟨"A", "q4", "cpu"⟩

/-- A concrete configuration, structurally different from `cfgA`. -/
def cfgB : Config := ⟨"B", "fp16", "webgpu"⟩

/-! ### Helper lemmas -/

theorem runCb_length : ∀ (frags : List (ℚ × String)) (st : CbState),
    (runCb st frags).length = frags.length
  | [], _ => rfl
  | (t, s) :: rest, st => by
    simp [runCb, runCb_length rest]

theorem runCb_first (t0 : ℚ) (s0 : String) (rest : List (ℚ × String)) :
    runCb cbInit ((t0, s0) :: rest) =
      WorkerEvent.update s0 none 1 :: runCb ⟨some t0, 1⟩ rest := by
  simp [runCb, cbStep, cbInit]

theorem runCb_after_first : ∀ (frags : List (ℚ × String)) (t0 : ℚ) (k i : Nat),
    (runCb ⟨some t0, k + 1⟩ frags).get? i = (frags.get? i).map (fun ts =>
      WorkerEvent.update ts.2
        (some (((k + i + 2 : Nat) : ℚ) / (ts.1 - t0) * 1000)) (k + i + 2))
  | [], _, _, _ => rfl
  | (t, s) :: rest, t0, k, 0 => by
    simp [runCb, cbStep]
    ring_nf
  | (t, s) :: rest, t0, k, i + 1 => by
    have h : k + 1 + i + 2 = k + (i + 1) + 2 := by omega
    have ih := runCb_after_first rest t0 (k + 1) i
    rw [h] at ih
    simpa [runCb, cbStep] using ih

theorem errorCount_cons_start (X : List WorkerEvent) :
    errorCount (WorkerEvent.start :: X) = errorCount X := rfl

theorem completeCount_cons_start (X : List WorkerEvent) :
    completeCount (WorkerEvent.start :: X) = completeCount X := rfl

theorem errorCount_complete_single (o : List String) :
    errorCount [WorkerEvent.complete o] = 0 := rfl

theorem completeCount_complete_single (o : List String) :
    completeCount [WorkerEvent.complete o] = 1 := rfl

theorem errorCount_cons_update (o : String) (tp : Option ℚ) (n : Nat)
    (X : List WorkerEvent) :
    errorCount (WorkerEvent.update o tp n :: X) = errorCount X := rfl

theorem completeCount_cons_update (o : String) (tp : Option ℚ) (n : Nat)
    (X : List WorkerEvent) :
    completeCount (WorkerEvent.update o tp n :: X) = completeCount X := rfl

theorem errorCount_runCb : ∀ (frags : List (ℚ × String)) (st : CbState),
    errorCount (runCb st frags) = 0
  | [], _ => rfl
  | (t, s) :: rest, st => by
    have ih := errorCount_runCb rest (cbStep st t s).1
    simpa [runCb, cbStep, errorCount_cons_update] using ih

theorem completeCount_runCb : ∀ (frags : List (ℚ × String)) (st : CbState),
    completeCount (runCb st frags) = 0
  | [], _ => rfl
  | (t, s) :: rest, st => by
    have ih := completeCount_runCb rest (cbStep st t s).1
    simpa [runCb, cbStep, completeCount_cons_update] using ih

theorem errorCount_append : ∀ (a b : List WorkerEvent),
    errorCount (a ++ b) = errorCount a + errorCount b
  | [], b => by simp [errorCount]
  | e :: rest, b => by
    have ih := errorCount_append rest b
    cases e
    case error m =>
      show errorCount (rest ++ b) + 1 = errorCount rest + 1 + errorCount b
      omega
    all_goals exact ih

theorem completeCount_append : ∀ (a b : List WorkerEvent),
    completeCount (a ++ b) = completeCount a + completeCount b
  | [], b => by simp [completeCount]
  | e :: rest, b => by
    have ih := completeCount_append rest b
    cases e
    case complete o =>
      show completeCount (rest ++ b) + 1 = completeCount rest + 1 + completeCount b
      omega
    all_goals exact ih

theorem all_id_replicate_true (n : Nat) :
    (List.replicate n true).all (fun b => b) = true := by
  induction n with
  | zero => rfl
  | succ m ih => simp [List.replicate_succ, ih]

theorem decodeLoop_length_le_fuel : ∀ (plan : List (ℚ × List Nat))
    (init : Bool) (intAt : Option Nat) (n j fuel : Nat), 1 ≤ fuel →
    (decodeLoop init intAt n j fuel plan).length ≤ fuel
  | [], _, _, _, _, _, _ => by simp [decodeLoop]
  | c :: rest, init, intAt, n, j, fuel, hf => by
    simp only [decodeLoop]
    split
    · simpa using hf
    · have ih := decodeLoop_length_le_fuel rest init intAt n (j + 1) (fuel - 1)
        (by omega)
      simp only [List.length_cons]
      omega

theorem decodeLoop_interrupt_bound : ∀ (plan : List (ℚ × List Nat))
    (k n j fuel : Nat), j ≤ k →
    (decodeLoop false (some k) n j fuel plan).length ≤ k + 1 - j
  | [], _, _, _, _, _ => by simp [decodeLoop]
  | c :: rest, k, n, j, fuel, hj => by
    by_cases hk : k ≤ j
    · have hstop : (InterruptableStoppingCriteria.call ⟨flagAt false (some k) j⟩
          (List.replicate n []) (List.replicate n [])).all (fun b => b) = true := by
        simp [InterruptableStoppingCriteria.call, flagAt, hk,
          all_id_replicate_true]
      simp only [decodeLoop, hstop]
      simp
      omega
    · have ih := decodeLoop_interrupt_bound rest k n (j + 1) (fuel - 1)
        (by omega)
      simp only [decodeLoop]
      split
      · simp
        omega
      · simp only [List.length_cons]
        omega

/-! ### Claim theorems -/

/-- C3: feeding a finite fragment sequence through the streaming callback
emits one update event per fragment, in arrival order; the event at 0-indexed
position i — the (i+1)-th emitted, 1-indexed — carries a token count of i+1;
its tokens-per-second field is undefined exactly on the first event, and on
every later event equals the token count divided by the milliseconds elapsed
since the first fragment's timestamp, multiplied by 1000. -/
theorem C3_streamAggregator_events (t0 : ℚ) (s0 : String)
    (rest : List (ℚ × String)) (i : Nat) :
    (runCb cbInit ((t0, s0) :: rest)).get? i =
      (((t0, s0) :: rest).get? i).map (fun ts =>
        WorkerEvent.update ts.2
          (if i = 0 then none
           else some (((i + 1 : Nat) : ℚ) / (ts.1 - t0) * 1000))
          (i + 1)) := by
  rw [runCb_first]
  cases i with
  | zero => rfl
  | succ j =>
    have h := runCb_after_first rest t0 0 j
    have e : 0 + j + 2 = j + 1 + 1 := by omega
    rw [e] at h
    simp only [List.get?_cons_succ]
    simpa using h

/-- C10: a message whose type is none of load, generate, interrupt and reset
falls through the router's switch: the worker state is unchanged and no event
at all is emitted. -/
theorem C10_unknown_command_ignored (W : World) (st : WorkerState)
    (m : HostMessage) (h1 : m.type ≠ "load") (h2 : m.type ≠ "generate")
    (h3 : m.type ≠ "interrupt") (h4 : m.type ≠ "reset") :
    handleMessage W st m = (st, []) := by
  simp [handleMessage, h1, h2, h3, h4]

/-- C10 witness: a concrete unknown command is silently ignored. -/
theorem C10_unknown_command_ignored_witness :
    handleMessage W0 ⟨⟨false⟩, PipelineCache.empty⟩ ⟨"frobnicate", [], cfgA⟩ =
      (⟨⟨false⟩, PipelineCache.empty⟩, []) :=
  C10_unknown_command_ignored W0 ⟨⟨false⟩, PipelineCache.empty⟩
    ⟨"frobnicate", [], cfgA⟩ (by decide) (by decide) (by decide) (by decide)

/-- C7: the router clears the interrupt flag exactly once at the start of
handling each generate command — handling generate from a stale-flag state is
identical to handling it from a clean state, and the flag is clear right after
dispatch; an explicit reset command clears the flag emitting nothing; an
interrupt command only sets the flag and emits no event. -/
theorem C7_router_flag_discipline (W : World) (b : Bool)
    (cache : PipelineCache) (d : List ChatMessage) (c : Config)
    (st : WorkerState) (md : List ChatMessage) (mc : Config) :
    handleMessage W ⟨⟨b⟩, cache⟩ ⟨"generate", d, c⟩ =
      handleMessage W ⟨⟨false⟩, cache⟩ ⟨"generate", d, c⟩ ∧
    (handleMessage W ⟨⟨b⟩, cache⟩ ⟨"generate", d, c⟩).1.criteria.interrupted
      = false ∧
    handleMessage W st ⟨"reset", md, mc⟩ = (⟨⟨false⟩, st.cache⟩, []) ∧
    handleMessage W st ⟨"interrupt", md, mc⟩ = (⟨⟨true⟩, st.cache⟩, []) :=
  ⟨rfl, rfl, rfl, rfl⟩

/-- C8: when the chat template fails to produce a structured result the
generation session aborts as a silent no-op — it emits no start, update,
complete or error event and touches no state; through the router, a generate
command on cached resources whose encoding fails likewise emits nothing. -/
theorem C8_encoding_failure_silent (W : World)
    (crit : InterruptableStoppingCriteria) (tok : Tokenizer) (mdl : Model)
    (msgs : List ChatMessage) (mid : Option String) (cfg : Config) (b : Bool)
    (henc : tok.applyChatTemplate msgs = none) :
    sessionRun W crit tok mdl msgs = [] ∧
    (handleMessage W ⟨⟨b⟩, ⟨mid, some (.ok tok), some (.ok mdl)⟩⟩
      ⟨"generate", msgs, cfg⟩).2 = [] := by
  constructor
  · simp [sessionRun, henc]
  · simp [handleMessage, generateRun, getInstance, promiseAll, sessionRun,
      henc]

/-- C8 witness: the stub tokenizer's chat template fails on an empty history
and the session emits nothing. -/
theorem C8_encoding_failure_silent_witness :
    sessionRun W0 ⟨false⟩ (tokStub "A") ⟨"A", "q4", "cpu"⟩ [] = [] ∧
    (handleMessage W0 ⟨⟨false⟩, ⟨some "A", some (.ok (tokStub "A")),
        some (.ok ⟨"A", "q4", "cpu"⟩)⟩⟩ ⟨"generate", [], cfgA⟩).2 = [] :=
  C8_encoding_failure_silent W0 ⟨false⟩ (tokStub "A") ⟨"A", "q4", "cpu"⟩ []
    (some "A") cfgA false rfl

/-- C2 counterexample: a generate command whose encoding step fails to
produce a structured result terminates with neither a complete nor an error
event, refuting the claim that every generate command yields one of the two. -/
theorem C2_generate_neither_event :
    (handleMessage W0 ⟨⟨false⟩, PipelineCache.empty⟩
        ⟨"generate", [], cfgA⟩).2 = [] ∧
    completeCount (handleMessage W0 ⟨⟨false⟩, PipelineCache.empty⟩
        ⟨"generate", [], cfgA⟩).2 = 0 ∧
    errorCount (handleMessage W0 ⟨⟨false⟩, PipelineCache.empty⟩
        ⟨"generate", [], cfgA⟩).2 = 0 :=
  ⟨rfl, rfl, rfl⟩

/-- C2 amended: a generate command never emits an error event (errors inside
the un-awaited async handler escape the router's try/catch); its trace is
either empty — when resource acquisition rejects or encoding fails — or
start, then updates, then exactly one complete; complete is emitted exactly
when acquisition and encoding both succeed. -/
theorem C2_amended_generate_outcomes (W : World) (b : Bool)
    (cache : PipelineCache) (msgs : List ChatMessage) (config : Config) :
    errorCount (handleMessage W ⟨⟨b⟩, cache⟩
        ⟨"generate", msgs, config⟩).2 = 0 ∧
    completeCount (handleMessage W ⟨⟨b⟩, cache⟩
        ⟨"generate", msgs, config⟩).2 =
      (match (getInstance W cache config false).result with
       | .error _ => 0
       | .ok (tok, _) =>
         match tok.applyChatTemplate msgs with
         | none => 0
         | some _ => 1) ∧
    ((handleMessage W ⟨⟨b⟩, cache⟩ ⟨"generate", msgs, config⟩).2 = [] ∨
      ∃ updates out,
        (handleMessage W ⟨⟨b⟩, cache⟩ ⟨"generate", msgs, config⟩).2 =
          WorkerEvent.start :: updates ++ [WorkerEvent.complete out]) := by
  have hmsg : (handleMessage W ⟨⟨b⟩, cache⟩ ⟨"generate", msgs, config⟩).2 =
      (generateRun W ⟨false⟩ cache msgs config).2 := rfl
  rw [hmsg]
  cases hres : (getInstance W cache config false).result with
  | error e =>
    have hgen : (generateRun W ⟨false⟩ cache msgs config).2 = [] := by
      simp only [generateRun, hres]
    rw [hgen]
    exact ⟨rfl, rfl, Or.inl rfl⟩
  | ok r =>
    obtain ⟨tok, mdl⟩ := r
    have hgen : (generateRun W ⟨false⟩ cache msgs config).2 =
        sessionRun W ⟨false⟩ tok mdl msgs := by
      simp only [generateRun, hres]
    rw [hgen]
    cases henc : tok.applyChatTemplate msgs with
    | none =>
      have hs : sessionRun W ⟨false⟩ tok mdl msgs = [] := by
        simp only [sessionRun, henc]
      rw [hs]
      refine ⟨rfl, ?_, Or.inl rfl⟩
      simp [henc, completeCount]
    | some inputs =>
      have hs : sessionRun W ⟨false⟩ tok mdl msgs =
          WorkerEvent.start :: runCb cbInit (fragsOf tok (genChunks W ⟨false⟩))
            ++ [WorkerEvent.complete (tok.batchDecode false
                ((genChunks W ⟨false⟩).map Prod.snd))] := by
        simp only [sessionRun, henc]
      rw [hs]
      refine ⟨?_, ?_, Or.inr ⟨_, _, rfl⟩⟩
      · simp [errorCount_append, errorCount_cons_start,
          errorCount_complete_single, errorCount_runCb]
      · simp [completeCount_append, completeCount_cons_start,
          completeCount_complete_single, completeCount_runCb, henc]

theorem generateRun_ok_events (W : World) (crit : InterruptableStoppingCriteria)
    (cache : PipelineCache) (msgs : List ChatMessage) (config : Config)
    (tok : Tokenizer) (mdl : Model) (inputs : ChatInputs)
    (hres : (getInstance W cache config false).result = Except.ok (tok, mdl))
    (henc : tok.applyChatTemplate msgs = some inputs) :
    (generateRun W crit cache msgs config).2 =
      WorkerEvent.start :: runCb cbInit (fragsOf tok (genChunks W crit))
        ++ [WorkerEvent.complete (tok.batchDecode false
            ((genChunks W crit).map Prod.snd))] := by
  have hgen : (generateRun W crit cache msgs config).2 =
      sessionRun W crit tok mdl msgs := by
    simp only [generateRun, hres]
  rw [hgen]
  simp only [sessionRun, henc]

theorem runCb_fragsOf_get (tok : Tokenizer) :
    ∀ (chunks : List (ℚ × List Nat)) (i : Nat) (c c0 : ℚ × List Nat),
      chunks.get? i = some c → chunks.head? = some c0 →
      (runCb cbInit (fragsOf tok chunks)).get? i =
        some (WorkerEvent.update (tok.decodeFragment true c.2)
          (if i = 0 then none
           else some (((i + 1 : Nat) : ℚ) / (c.1 - c0.1) * 1000)) (i + 1))
  | [], i, c, c0, hc, h0 => by cases h0
  | d :: rest, i, c, c0, hc, h0 => by
    have hd : d = c0 := by simpa using h0
    subst hd
    have hf : fragsOf tok (d :: rest) =
        (d.1, tok.decodeFragment true d.2) :: fragsOf tok rest := rfl
    rw [hf, runCb_first]
    cases i with
    | zero =>
      have hc0 : d = c := by simpa using hc
      subst hc0
      rfl
    | succ j =>
      have hrest : rest.get? j = some c := by simpa using hc
      have h := runCb_after_first (fragsOf tok rest) d.1 0 j
      have e : 0 + j + 2 = j + 1 + 1 := by omega
      rw [e] at h
      have hfr : (fragsOf tok rest).get? j =
          some (c.1, tok.decodeFragment true c.2) := by
        unfold fragsOf
        rw [List.get?_map, hrest]
        rfl
      rw [List.get?_cons_succ, h, hfr]
      simp

/-- C6: for a successful generate the emitted order is one start event, then
one update per engine fragment in production order — the update at 0-based
position i carrying the fragment decoded with special tokens suppressed and
token count i+1 — then exactly one complete event whose payload is the raw
output decoded with special tokens kept; no error event is emitted. -/
theorem C6_generate_event_shape (W : World)
    (crit : InterruptableStoppingCriteria) (cache : PipelineCache)
    (msgs : List ChatMessage) (config : Config) (tok : Tokenizer)
    (mdl : Model) (inputs : ChatInputs)
    (hres : (getInstance W cache config false).result = Except.ok (tok, mdl))
    (henc : tok.applyChatTemplate msgs = some inputs) :
    (generateRun W crit cache msgs config).2 =
      WorkerEvent.start :: runCb cbInit (fragsOf tok (genChunks W crit))
        ++ [WorkerEvent.complete (tok.batchDecode false
            ((genChunks W crit).map Prod.snd))] ∧
    (runCb cbInit (fragsOf tok (genChunks W crit))).length =
      (genChunks W crit).length ∧
    (∀ (i : Nat) (c c0 : ℚ × List Nat),
      (genChunks W crit).get? i = some c →
      (genChunks W crit).head? = some c0 →
      (runCb cbInit (fragsOf tok (genChunks W crit))).get? i =
        some (WorkerEvent.update (tok.decodeFragment true c.2)
          (if i = 0 then none
           else some (((i + 1 : Nat) : ℚ) / (c.1 - c0.1) * 1000)) (i + 1))) ∧
    completeCount ((generateRun W crit cache msgs config).2) = 1 ∧
    errorCount ((generateRun W crit cache msgs config).2) = 0 := by
  have hev := generateRun_ok_events W crit cache msgs config tok mdl inputs
    hres henc
  refine ⟨hev, ?_, ?_, ?_, ?_⟩
  · simp [runCb_length, fragsOf]
  · intro i c c0 hc h0
    exact runCb_fragsOf_get tok (genChunks W crit) i c c0 hc h0
  · rw [hev]
    simp [completeCount_append, completeCount_cons_start,
      completeCount_complete_single, completeCount_runCb]
  · rw [hev]
    simp [errorCount_append, errorCount_cons_start,
      errorCount_complete_single, errorCount_runCb]

/-- C6 witness: concrete successful generate against the stub world,
hypotheses discharged by computation. -/
theorem C6_generate_event_shape_witness :
    (generateRun W0 ⟨false⟩ PipelineCache.empty [⟨"user", "hi"⟩] cfgA).2 =
      WorkerEvent.start :: runCb cbInit (fragsOf (tokStub "A")
          (genChunks W0 ⟨false⟩))
        ++ [WorkerEvent.complete ((tokStub "A").batchDecode false
            ((genChunks W0 ⟨false⟩).map Prod.snd))] :=
  (C6_generate_event_shape W0 ⟨false⟩ PipelineCache.empty [⟨"user", "hi"⟩]
    cfgA (tokStub "A") ⟨"A", "q4", "cpu"⟩ ⟨[1]⟩ rfl rfl).1

/-- C1: the stopping criteria's check returns one copy of the flag's value
per sequence of the batch; when an interrupt command lands at step k of an
active generation started with a clear flag, the decoding loop stops within
one step of the flag being set — at most k+1 fragments, hence at most k+1
update events, are produced — and the session still ends with exactly one
complete event and no error event. -/
theorem C1_interrupt_completes (W : World)
    (crit : InterruptableStoppingCriteria) (cache : PipelineCache)
    (msgs : List ChatMessage) (config : Config) (tok : Tokenizer)
    (mdl : Model) (inputs : ChatInputs) (k : Nat)
    (hres : (getInstance W cache config false).result = Except.ok (tok, mdl))
    (henc : tok.applyChatTemplate msgs = some inputs)
    (hflag : crit.interrupted = false)
    (hint : W.interruptAt = some k) :
    (∀ (b : Bool) (ids scores : List (List Nat)),
        InterruptableStoppingCriteria.call ⟨b⟩ ids scores =
          List.replicate ids.length b) ∧
    (genChunks W crit).length ≤ k + 1 ∧
    (runCb cbInit (fragsOf tok (genChunks W crit))).length ≤ k + 1 ∧
    (generateRun W crit cache msgs config).2 =
      WorkerEvent.start :: runCb cbInit (fragsOf tok (genChunks W crit))
        ++ [WorkerEvent.complete (tok.batchDecode false
            ((genChunks W crit).map Prod.snd))] ∧
    completeCount ((generateRun W crit cache msgs config).2) = 1 ∧
    errorCount ((generateRun W crit cache msgs config).2) = 0 := by
  have hev := generateRun_ok_events W crit cache msgs config tok mdl inputs
    hres henc
  have hlen : (genChunks W crit).length ≤ k + 1 := by
    have hb := decodeLoop_interrupt_bound W.enginePlan k W.batchSize 0 512
      (Nat.zero_le k)
    simpa [genChunks, hflag, hint] using hb
  have hul : (runCb cbInit (fragsOf tok (genChunks W crit))).length ≤ k + 1 := by
    rw [runCb_length]
    simpa [fragsOf] using hlen
  refine ⟨fun b ids scores => rfl, hlen, hul, hev, ?_, ?_⟩
  · rw [hev]
    simp [completeCount_append, completeCount_cons_start,
      completeCount_complete_single, completeCount_runCb]
  · rw [hev]
    simp [errorCount_append, errorCount_cons_start,
      errorCount_complete_single, errorCount_runCb]

/-- C1 witness: interrupt landing at step 1 against the stub world (whose
engine plans five fragments): at most two fragments are produced and a single
complete event is still emitted. -/
theorem C1_interrupt_completes_witness :
    (genChunks W1 ⟨false⟩).length ≤ 1 + 1 ∧
    completeCount ((generateRun W1 ⟨false⟩ PipelineCache.empty
        [⟨"user", "hi"⟩] cfgA).2) = 1 :=
  ⟨(C1_interrupt_completes W1 ⟨false⟩ PipelineCache.empty [⟨"user", "hi"⟩]
      cfgA (tokStub "A") ⟨"A", "q4", "cpu"⟩ ⟨[1]⟩ 1 rfl rfl rfl rfl).2.1,
   (C1_interrupt_completes W1 ⟨false⟩ PipelineCache.empty [⟨"user", "hi"⟩]
      cfgA (tokStub "A") ⟨"A", "q4", "cpu"⟩ ⟨[1]⟩ 1 rfl rfl rfl
      rfl).2.2.2.2.1⟩

/-- C4 counterexample: the pipeline cache is not keyed by the Config's
fields — after a first acquire with config A, an acquire with the
structurally different config B is answered from the same static slot: it
returns the resource loaded for model id "A" (B's load never happens, as the
absence of progress events shows), so the resource is not created once per
distinct Config. -/
theorem C4_cache_ignores_config :
    cfgA ≠ cfgB ∧
    cfgB.modelName = "B" ∧
    resultModelId (getInstance W0 (getInstance W0 PipelineCache.empty cfgA
        true).cache cfgB true).result = some "A" ∧
    (getInstance W0 (getInstance W0 PipelineCache.empty cfgA true).cache
        cfgB true).progressEvents = [] :=
  ⟨by decide, rfl, rfl, rfl⟩

/-- C4 amended: the model resource is created once per process, in a single
static slot whose contents ignore the Config: any second acquire — whether
its Config equals the first one or not — returns the first call's result,
re-invokes no progress callback, and leaves the cached artifacts untouched,
only overwriting the stored model id with the new Config's model name. -/
theorem C4_amended_single_slot_cache (W : World) (c1 c2 : Config)
    (p1 p2 : Bool) :
    (getInstance W (getInstance W PipelineCache.empty c1 p1).cache c2
        p2).result = (getInstance W PipelineCache.empty c1 p1).result ∧
    (getInstance W (getInstance W PipelineCache.empty c1 p1).cache c2
        p2).progressEvents = [] ∧
    (getInstance W (getInstance W PipelineCache.empty c1 p1).cache c2
        p2).cache =
      { (getInstance W PipelineCache.empty c1 p1).cache with
          model_id := some c2.modelName } :=
  ⟨rfl, rfl, rfl⟩

/-- C5: evaluation at the failing input.  With a backend whose tokenizer
fetch rejects, the first load command emits no error event (the rejection
escapes the un-awaited async handler, so the router's catch never runs); the
rejection is cached, and a second load command with the same config is served
the same earlier rejection: it starts no fresh load (no progress events) and
emits only the initial loading event — no error event and no ready event. -/
theorem C5_failed_load_poisons_cache :
    errorCount (handleMessage Wfail ⟨⟨false⟩, PipelineCache.empty⟩
        ⟨"load", [], cfgA⟩).2 = 0 ∧
    (handleMessage Wfail ⟨⟨false⟩, PipelineCache.empty⟩
        ⟨"load", [], cfgA⟩).1.cache.tokenizer =
      some (Except.error "network failure") ∧
    (getInstance Wfail (handleMessage Wfail ⟨⟨false⟩, PipelineCache.empty⟩
        ⟨"load", [], cfgA⟩).1.cache cfgA true).progressEvents = [] ∧
    (getInstance Wfail (handleMessage Wfail ⟨⟨false⟩, PipelineCache.empty⟩
        ⟨"load", [], cfgA⟩).1.cache cfgA true).result =
      Except.error "network failure" ∧
    (handleMessage Wfail (handleMessage Wfail ⟨⟨false⟩, PipelineCache.empty⟩
        ⟨"load", [], cfgA⟩).1 ⟨"load", [], cfgA⟩).2 =
      [WorkerEvent.loading "Loading model...\nA (q4) cpu"] :=
  ⟨rfl, rfl, rfl, rfl, rfl⟩

/-- C9: a successful load emits, in order: a first loading status event,
every progress event from the acquisition republished verbatim in production
order, a second loading event announcing the warm-up phase and, after a
warm-up generation bounded to one generated unit, a final ready event. -/
theorem C9_load_event_order (W : World) (cache : PipelineCache)
    (config : Config) (tok : Tokenizer) (mdl : Model)
    (hres : (getInstance W cache config true).result = Except.ok (tok, mdl)) :
    (loadRun W cache config).2 =
      WorkerEvent.loading ("Loading model...\n" ++ config.modelName ++ " ("
          ++ config.dtype ++ ") " ++ config.device)
        :: (getInstance W cache config true).progressEvents.map
            WorkerEvent.progressEvt
        ++ [WorkerEvent.loading "Compiling shaders and warming up model...",
            WorkerEvent.ready] ∧
    (warmupRun W tok mdl).length ≤ 1 := by
  constructor
  · simp only [loadRun, hres]
  · simpa [warmupRun] using
      decodeLoop_length_le_fuel W.enginePlan false none W.batchSize 0 1 le_rfl

/-- C9 witness: a concrete successful load against the stub world produces
the full event order with both artifacts' progress events in between. -/
theorem C9_load_event_order_witness :
    (loadRun W0 PipelineCache.empty cfgA).2 =
      WorkerEvent.loading ("Loading model...\n" ++ cfgA.modelName ++ " ("
          ++ cfgA.dtype ++ ") " ++ cfgA.device)
        :: (getInstance W0 PipelineCache.empty cfgA true).progressEvents.map
            WorkerEvent.progressEvt
        ++ [WorkerEvent.loading "Compiling shaders and warming up model...",
            WorkerEvent.ready] ∧
    (warmupRun W0 (tokStub "A") ⟨"A", "q4", "cpu"⟩).length ≤ 1 :=
  C9_load_event_order W0 PipelineCache.empty cfgA (tokStub "A")
    ⟨"A", "q4", "cpu"⟩ rfl

end WebGpuChat
